import Mathlib

/-!
# Verification of `examples/earth.c` (PUMAS earth example)

Shallow embedding of the layered-medium geometry example shipped with the
PUMAS muon-transport library.  The file models, faithfully to the C source:

* the particle state `struct pumas_state` (position, direction, energy,
  weight, charge), with C doubles rendered as rationals;
* the medium table `earth_media` and the medium-resolution callback
  `earth_medium` built on the external TURTLE boundary stepper (the stepper
  itself is third-party and is passed in as an abstract query function);
* the PRNG `uniform01` (`rand() / (double)RAND_MAX`);
* the transport loop of `main` (fuel-bounded iteration of the propagation
  engine, breaking when the kinetic energy is zero or the after-medium is
  NULL);
* the resource/exit discipline of `main`, `exit_gracefully` and
  `handle_error` as an action trace;
* the context configuration of `main` (medium callback, PRNG, event mask).

Definitions whose C source is not part of the example (the PUMAS engine
entry point `pumas_context_transport`, the `PUMAS_EVENT_MEDIUM` flag, the
TURTLE layer bookkeeping) are modelled from the specification and flagged
as such in their doc comments.
-/

/-- Three C doubles (`double[3]`), rendered as rationals. -/
abbrev Vec3 : Type := ℚ × ℚ × ℚ

/-- `struct pumas_state`: the Monte-Carlo particle state.  Fields are the
ones the example reads or writes (`charge`, `energy`, `weight`,
`position`, `direction`). -/
structure PState where
  charge : ℚ
  energy : ℚ
  weight : ℚ
  position : Vec3
  direction : Vec3
deriving DecidableEq

/-- `struct pumas_medium`: a material index plus an optional locals
callback (always `NULL` in this example, modelled as `Option Unit`). -/
structure Medium where
  material : Int
  locals : Option Unit
deriving DecidableEq

/-- `#define NUMBER_OF_LAYERS 3` -/
def NUMBER_OF_LAYERS : Int := 3

/-- The `earth_media` array after `main` has mapped the material indices:
entry 0 holds the index resolved for "StandardRock", entry 1 for "Water",
entry 2 for "Air"; every locals callback is `NULL`.  The resolved indices
are parameters because `pumas_physics_material_index` is a black-box
library call. -/
def earth_media (rock water air : Int) : List Medium :=
  [⟨rock, none⟩, ⟨water, none⟩, ⟨air, none⟩]

/-- `enum pumas_step` return values of a medium callback. -/
inductive PumasStep where
  | approximate
  | raw
deriving DecidableEq

/-- What one call of the C function `earth_medium` communicates to its
caller: the value stored through `step_ptr` (if non-NULL), the value
stored through `medium_ptr` (if non-NULL; the stored value is itself a
possibly-NULL medium pointer), the returned `enum pumas_step` tag, and
whether the TURTLE stepper was queried. -/
structure MediumCallbackResult where
  stepOut : Option ℚ
  mediumOut : Option (Option Medium)
  tag : PumasStep
  stepperQueried : Bool
deriving DecidableEq

/-- The C function `earth_medium`.  The TURTLE boundary stepper
(`turtle_stepper_step`, third-party code used as a black box) is the
abstract query `stepper`, mapping the particle position to the tentative
step length and the layer index `index[0]` at the end-step position.  The
booleans `mediumPtr` and `stepPtr` record whether the corresponding output
pointers are non-NULL.  The C function never writes to `state`; the
returned `PState` is the state as left by the call. -/
def earth_medium (stepper : Vec3 → ℚ × Int) (rock water air : Int)
    (state : PState) (mediumPtr stepPtr : Bool) :
    MediumCallbackResult × PState :=
  let r := stepper state.position
  let stepOut : Option ℚ := if stepPtr then some r.1 else none
  let mediumOut : Option (Option Medium) :=
    if mediumPtr then
      some (if 0 ≤ r.2 ∧ r.2 < NUMBER_OF_LAYERS
            then (earth_media rock water air).get? r.2.toNat
            else none)
    else none
  (⟨stepOut, mediumOut, PumasStep.approximate, true⟩, state)

/-- The C function `uniform01`: `rand() / (double)RAND_MAX`.  `rand()` is
modelled by its result `r`, an integer in `[0, RAND_MAX]`; the division is
taken over the rationals.  At the endpoints `r = 0` and `r = RAND_MAX` the
IEEE double division is exact (0.0 and 1.0), so the rational model agrees
with the C value there. -/
def uniform01 (RAND_MAX r : ℕ) : ℚ :=
  (r : ℚ) / (RAND_MAX : ℚ)

/-- The break condition at the end of the transport-loop body of `main`
(line 240): `state.energy == 0 || media[1] == NULL`. -/
def loopBreak (s : PState) (mediaAfter : Option Medium) : Prop :=
  s.energy = 0 ∨ mediaAfter = none

instance (s : PState) (m : Option Medium) : Decidable (loopBreak s m) := by
  unfold loopBreak
  exact inferInstance

/-- The transport loop of `main` (lines 233-241), driven by the external
propagation engine.  One engine call returns the advanced state and the
media pair `media[0..1]` observed at the step.  `fuel` bounds the number
of iterations so that the loop is total; `none` means the loop has not
terminated within `fuel` iterations.  On termination the result is the
number of engine calls made and the final state. -/
def runTransport (engine : PState → PState × Option Medium × Option Medium) :
    ℕ → PState → Option (ℕ × PState)
  | 0, _ => none
  | fuel + 1, s =>
    if loopBreak (engine s).1 (engine s).2.2 then some (1, (engine s).1)
    else (runTransport engine fuel (engine s).1).map fun p => (p.1 + 1, p.2)

/-- The particle state after `k` engine calls, starting from `s`. -/
def engineIter (engine : PState → PState × Option Medium × Option Medium)
    (s : PState) : ℕ → PState
  | 0 => s
  | k + 1 => (engine (engineIter engine s k)).1

/-- The loop's break condition evaluated on the report of the `k`-th
engine call (0-based): the advanced state has zero energy, or the
after-medium `media[1]` is NULL. -/
def stopCondAt (engine : PState → PState × Option Medium × Option Medium)
    (s : PState) (k : ℕ) : Prop :=
  loopBreak (engine (engineIter engine s k)).1
    (engine (engineIter engine s k)).2.2

/-- Modelled from the spec: `pumas_context_transport`, the PUMAS
propagation engine entry point (part of this repository but not under
`src/`).  Per §4.4 and §6 of the specification the engine first resolves
the current medium through the context's medium callback; a particle that
is already in a void medium gets a degenerate zero-length step: the state
is left unchanged and the reported media pair is NULL/NULL.  Propagation
inside a medium involves the out-of-scope physics and stays abstract as
the parameter `advance`. -/
def pumas_context_transport
    (resolve : PState → Option Medium × ℚ)
    (advance : PState → PState × Option Medium × Option Medium)
    (s : PState) : PState × Option Medium × Option Medium :=
  match (resolve s).1 with
  | none => (s, none, none)
  | some _ => advance s

/-- The medium resolver installed by `context->medium = &earth_medium`
(line 186): `earth_medium` as the engine invokes it, with non-NULL medium
and step output pointers. -/
def context_medium (stepper : Vec3 → ℚ × Int) (rock water air : Int)
    (s : PState) : Option Medium × ℚ :=
  let res := (earth_medium stepper rock water air s true true).1
  (res.mediumOut.join, res.stepOut.getD 0)

/-- The propagation engine as configured by `main`:
`pumas_context_transport` with `earth_medium` as the medium callback. -/
def earthEngine (stepper : Vec3 → ℚ × Int) (rock water air : Int)
    (advance : PState → PState × Option Medium × Option Medium) :
    PState → PState × Option Medium × Option Medium :=
  pumas_context_transport (context_medium stepper rock water air) advance

/-- A TURTLE stepper construction call, as issued by `main`:
`turtle_stepper_add_flat` with the given elevation, or
`turtle_stepper_add_layer`. -/
inductive StepperOp where
  | addFlat (elevation : ℚ)
  | addLayer
deriving DecidableEq

/-- The TURTLE stepper construction sequence of `main` (lines 208-213):
flat elevations -1 km, 0 and +1 km, with a layer break between
consecutive ones. -/
def mainStepperOps : List StepperOp :=
  [.addFlat (-1000), .addLayer, .addFlat 0, .addLayer, .addFlat 1000]

/-- Modelled from the spec: the TURTLE stepper's layer bookkeeping (the
stepper is third-party code; §2 and §4.1 of the specification describe the
resulting Layer Stack).  A freshly created stepper holds one layer and
each `turtle_stepper_add_layer` call starts a new one, so N flat
elevations separated by layer breaks yield N layers. -/
def layerCount (ops : List StepperOp) : ℕ :=
  1 + ops.countP fun op => match op with
    | .addLayer => true
    | _ => false

/-- The flat elevations recorded by a construction sequence, bottom to
top. -/
def stackElevations (ops : List StepperOp) : List ℚ :=
  ops.filterMap fun op => match op with
    | .addFlat e => some e
    | .addLayer => none

/-- `struct pumas_context` as far as the example configures it: whether
the medium callback and the PRNG are installed, and the `event` bit
mask. -/
structure Context where
  medium : Bool
  random : Bool
  event : ℕ
deriving DecidableEq

/-- Modelled from the spec: `PUMAS_EVENT_MEDIUM` (declared in `pumas.h`,
part of this repository but not under `src/`) is the event-mask flag that
makes the engine stop at each change of medium; it is modelled as a single
distinguished bit `b` of the mask. -/
def PUMAS_EVENT_MEDIUM (b : ℕ) : ℕ := 2 ^ b

/-- Lines 186-192 of `main`: install the medium callback, install the
PRNG, and OR the medium-event flag into the context's event mask. -/
def configureContext (c : Context) (b : ℕ) : Context :=
  { medium := true, random := true,
    event := c.event ||| PUMAS_EVENT_MEDIUM b }

/-- The three library handles owned by the example process, in their
static-variable roles (`stepper`, `context`, `physics`). -/
inductive Handle where
  | stepperH
  | contextH
  | physicsH
deriving DecidableEq

/-- Observable actions of the example process. -/
inductive ProcAction where
  | usageMsg
  | acquire (h : Handle)
  | mapMaterials
  | setMediumCallback
  | setRandomCallback
  | setEventMask
  | transportStep
  | release (h : Handle)
  | exitProc (ok : Bool)
deriving DecidableEq

/-- The C function `exit_gracefully` (lines 48-54): destroy the TURTLE
stepper, then the PUMAS context, then the PUMAS physics, then
`exit(rc)`. -/
def exit_gracefully (ok : Bool) : List ProcAction :=
  [.release .stepperH, .release .contextH, .release .physicsH,
   .exitProc ok]

/-- The C function `handle_error` (lines 57-66): dump the error summary to
stderr, then `exit_gracefully(EXIT_FAILURE)`. -/
def handle_error : List ProcAction :=
  exit_gracefully false

/-- The setup actions of `main` in program order: load the physics
(line 172), map the material indices (lines 176-180), create the context
(line 183), install the medium callback (line 186), install the PRNG
(line 189), set the medium-event flag (line 192), create the TURTLE
stepper (line 208). -/
def setupActions : List ProcAction :=
  [.acquire .physicsH, .mapMaterials, .acquire .contextH,
   .setMediumCallback, .setRandomCallback, .setEventMask,
   .acquire .stepperH]

/-- The action trace of `main`.  `nargGe4`: at least three command-line
arguments were given (line 145); `dumpOpen`: the `materials/dump` file
opened (line 168); `libErrAt = some k`: the `k`-th setup action raises a
PUMAS library error, which invokes `handle_error` through the installed
error handler (line 161); `loopIters`: the number of transport-loop
iterations performed on the successful path. -/
def mainTrace (nargGe4 dumpOpen : Bool) (libErrAt : Option ℕ)
    (loopIters : ℕ) : List ProcAction :=
  if nargGe4 = false then ProcAction.usageMsg :: exit_gracefully false
  else if dumpOpen = false then exit_gracefully false
  else
    match libErrAt with
    | some k => setupActions.take k ++ handle_error
    | none =>
        setupActions ++ List.replicate loopIters ProcAction.transportStep ++
          exit_gracefully true

/-- The handle released by an action, when the action is a release. -/
def releaseOf : ProcAction → Option Handle
  | .release h => some h
  | _ => none

/-- The handle acquired by an action, when the action is an
acquisition. -/
def acquireOf : ProcAction → Option Handle
  | .acquire h => some h
  | _ => none

instance (engine : PState → PState × Option Medium × Option Medium)
    (s : PState) (k : ℕ) : Decidable (stopCondAt engine s k) := by
  unfold stopCondAt
  exact inferInstance

/-- A concrete particle state used to instantiate universally quantified
statements: a muon at the ECEF origin heading up with 1 GeV. -/
def sampleState : PState :=
  ⟨-1, 1000000000, 1, (0, 0, 0), (0, 0, 1)⟩

/-- A second concrete state sharing `sampleState`'s position but differing
in charge, energy, weight and direction. -/
def sampleState2 : PState :=
  ⟨1, 5, 2, (0, 0, 0), (1, 0, 0)⟩

/-!
## Theorems
-/

/-- C1: for every particle state, the medium-resolution callback
`earth_medium` stores, through a non-NULL medium pointer, the medium-table
entry at the layer index reported by the boundary stepper whenever that
index lies in `[0, NUMBER_OF_LAYERS) = [0, 3)` (and such an entry always
exists), and stores NULL (void) for every index outside that range,
negative indices included. -/
theorem earth_medium_resolves_index (stepper : Vec3 → ℚ × Int)
    (rock water air : Int) (s : PState) (sp : Bool) :
    (0 ≤ (stepper s.position).2 ∧
        (stepper s.position).2 < NUMBER_OF_LAYERS →
      (earth_medium stepper rock water air s true sp).1.mediumOut =
        some ((earth_media rock water air).get?
          (stepper s.position).2.toNat) ∧
      ((earth_media rock water air).get?
          (stepper s.position).2.toNat).isSome = true) ∧
    (¬(0 ≤ (stepper s.position).2 ∧
        (stepper s.position).2 < NUMBER_OF_LAYERS) →
      (earth_medium stepper rock water air s true sp).1.mediumOut =
        some none) := by
  constructor
  · intro h
    refine ⟨by simp [earth_medium, h], ?_⟩
    have hlt : (stepper s.position).2.toNat < 3 := by
      rcases h with ⟨h0, h3⟩
      simp only [NUMBER_OF_LAYERS] at h3
      omega
    rw [List.get?_eq_get (by simpa [earth_media] using hlt)]
    rfl
  · intro h
    simp [earth_medium, h]

/-- C1 witness: at layer index 1 the callback stores the Water entry of
the table; at index -1 it stores NULL. -/
theorem earth_medium_resolves_index_witness :
    ((earth_medium (fun _ => ((10 : ℚ), (1 : Int))) 7 8 9 sampleState
        true true).1.mediumOut =
      some ((earth_media 7 8 9).get? 1) ∧
     ((earth_media 7 8 9).get? 1).isSome = true) ∧
    (earth_medium (fun _ => ((10 : ℚ), (-1 : Int))) 7 8 9 sampleState
        true true).1.mediumOut = some none := by
  constructor
  · exact (earth_medium_resolves_index (fun _ => ((10 : ℚ), (1 : Int)))
      7 8 9 sampleState true).1 (by decide)
  · exact (earth_medium_resolves_index (fun _ => ((10 : ℚ), (-1 : Int)))
      7 8 9 sampleState true).2 (by decide)

/-- C5: the medium-resolution callback is a pure query with respect to the
particle state: every field of the state (position, direction, energy,
weight, charge) is unchanged by the call. -/
theorem earth_medium_pure_query (stepper : Vec3 → ℚ × Int)
    (rock water air : Int) (s : PState) (mp sp : Bool) :
    ((earth_medium stepper rock water air s mp sp).2.position =
        s.position) ∧
    ((earth_medium stepper rock water air s mp sp).2.direction =
        s.direction) ∧
    ((earth_medium stepper rock water air s mp sp).2.energy = s.energy) ∧
    ((earth_medium stepper rock water air s mp sp).2.weight = s.weight) ∧
    ((earth_medium stepper rock water air s mp sp).2.charge = s.charge) :=
  ⟨rfl, rfl, rfl, rfl, rfl⟩

/-- C9: the medium-resolution callback tolerates NULL output pointers: a
NULL step pointer means no step value is stored, a NULL medium pointer
means no medium is stored, and in every case the stepper query is still
performed and the returned tag is `PUMAS_STEP_APPROXIMATE`. -/
theorem earth_medium_null_outputs (stepper : Vec3 → ℚ × Int)
    (rock water air : Int) (s : PState) (mp sp : Bool) :
    (sp = false →
      (earth_medium stepper rock water air s mp sp).1.stepOut = none) ∧
    (mp = false →
      (earth_medium stepper rock water air s mp sp).1.mediumOut = none) ∧
    (earth_medium stepper rock water air s mp sp).1.tag =
      PumasStep.approximate ∧
    (earth_medium stepper rock water air s mp sp).1.stepperQueried =
      true := by
  refine ⟨fun h => ?_, fun h => ?_, rfl, rfl⟩ <;> simp [earth_medium, h]

/-- C9 witness: with both output pointers NULL nothing is stored, yet the
tag is `PUMAS_STEP_APPROXIMATE` and the stepper was queried. -/
theorem earth_medium_null_outputs_witness :
    (earth_medium (fun _ => ((10 : ℚ), (1 : Int))) 7 8 9 sampleState
        false false).1.stepOut = none ∧
    (earth_medium (fun _ => ((10 : ℚ), (1 : Int))) 7 8 9 sampleState
        false false).1.mediumOut = none := by
  have h := earth_medium_null_outputs (fun _ => ((10 : ℚ), (1 : Int)))
    7 8 9 sampleState false false
  exact ⟨h.1 rfl, h.2.1 rfl⟩

/-- C10: the medium-resolution callback depends only on the particle's
position: two states with equal position fields receive the same stored
medium, the same step bound, the same tag, no matter how their direction,
energy, weight or charge differ. -/
theorem earth_medium_position_only (stepper : Vec3 → ℚ × Int)
    (rock water air : Int) (s1 s2 : PState) (mp sp : Bool)
    (h : s1.position = s2.position) :
    (earth_medium stepper rock water air s1 mp sp).1 =
      (earth_medium stepper rock water air s2 mp sp).1 := by
  simp only [earth_medium, h]

/-- C10 witness: `sampleState` and `sampleState2` differ in charge,
energy, weight and direction but share a position, and the callback
returns identical results on them. -/
theorem earth_medium_position_only_witness :
    sampleState ≠ sampleState2 ∧
    (earth_medium (fun _ => ((10 : ℚ), (1 : Int))) 7 8 9 sampleState
        true true).1 =
      (earth_medium (fun _ => ((10 : ℚ), (1 : Int))) 7 8 9 sampleState2
        true true).1 := by
  refine ⟨by decide, ?_⟩
  exact earth_medium_position_only (fun _ => ((10 : ℚ), (1 : Int)))
    7 8 9 sampleState sampleState2 true true (by decide)

/-- C3 counterexample: `rand()` may return `RAND_MAX` itself (here the
glibc value 2147483647), and then `uniform01` evaluates to exactly 1,
which is not in the half-open interval `[0, 1)`.  The IEEE double division
`RAND_MAX / (double)RAND_MAX` is exact, so the C program really produces
1.0; the function's own comment announces a distribution over
`[0, 1]`. -/
theorem uniform01_attains_one :
    uniform01 2147483647 2147483647 = 1 ∧
    ¬(0 ≤ uniform01 2147483647 2147483647 ∧
      uniform01 2147483647 2147483647 < 1) := by
  have h1 : uniform01 2147483647 2147483647 = 1 := by
    unfold uniform01
    norm_num
  rw [h1]
  norm_num

/-- C3 amended: every value produced by `uniform01` lies in the closed
interval `[0, 1]`; the upper endpoint is attainable, so the half-open
bound of the claim fails exactly when `rand()` returns `RAND_MAX`. -/
theorem uniform01_mem_unit_interval (RAND_MAX r : ℕ)
    (hpos : 0 < RAND_MAX) (hr : r ≤ RAND_MAX) :
    0 ≤ uniform01 RAND_MAX r ∧ uniform01 RAND_MAX r ≤ 1 := by
  unfold uniform01
  constructor
  · positivity
  · rw [div_le_one (by exact_mod_cast hpos)]
    exact_mod_cast hr

/-- C3 amended witness: a sample draw 123 of 2147483647 lies in
`[0, 1]`. -/
theorem uniform01_mem_unit_interval_witness :
    0 ≤ uniform01 2147483647 123 ∧ uniform01 2147483647 123 ≤ 1 :=
  uniform01_mem_unit_interval 2147483647 123 (by norm_num) (by norm_num)

/-- C6: the stack `main` builds from the flat elevations
`{-1000, 0, 1000}` carries exactly 3 layers, matching both the medium
table's size and `NUMBER_OF_LAYERS`; the medium callback resolves layer
index 0 to the StandardRock entry, 1 to the Water entry, 2 to the Air
entry, and VOID (NULL) for every index `< 0` or `≥ 3`. -/
theorem layer_stack_roundtrip (rock water air : Int) (s : PState)
    (st : ℚ) :
    layerCount mainStepperOps = 3 ∧
    stackElevations mainStepperOps = [-1000, 0, 1000] ∧
    (earth_media rock water air).length = 3 ∧
    NUMBER_OF_LAYERS = 3 ∧
    (earth_medium (fun _ => (st, (0 : Int))) rock water air s
        true true).1.mediumOut = some (some ⟨rock, none⟩) ∧
    (earth_medium (fun _ => (st, (1 : Int))) rock water air s
        true true).1.mediumOut = some (some ⟨water, none⟩) ∧
    (earth_medium (fun _ => (st, (2 : Int))) rock water air s
        true true).1.mediumOut = some (some ⟨air, none⟩) ∧
    (∀ i : Int, i < 0 ∨ NUMBER_OF_LAYERS ≤ i →
      (earth_medium (fun _ => (st, i)) rock water air s
          true true).1.mediumOut = some none) := by
  refine ⟨rfl, rfl, rfl, rfl, ?_, ?_, ?_, ?_⟩
  · simp [earth_medium, earth_media, NUMBER_OF_LAYERS]
  · simp [earth_medium, earth_media, NUMBER_OF_LAYERS]
  · simp [earth_medium, earth_media, NUMBER_OF_LAYERS]
  · intro i hi
    have hneg : ¬(0 ≤ i ∧ i < NUMBER_OF_LAYERS) := by
      simp only [NUMBER_OF_LAYERS] at hi ⊢
      omega
    simp [earth_medium, hneg]

/-- C6 witness: index 3 (just above the atmosphere layer) resolves to
VOID. -/
theorem layer_stack_roundtrip_witness :
    (earth_medium (fun _ => ((10 : ℚ), (3 : Int))) 7 8 9 sampleState
        true true).1.mediumOut = some none :=
  (layer_stack_roundtrip 7 8 9 sampleState 10).2.2.2.2.2.2.2 3
    (by decide)

lemma filterMap_releaseOf_replicate (n : ℕ) :
    (List.replicate n ProcAction.transportStep).filterMap releaseOf =
      [] := by
  induction n with
  | zero => rfl
  | succ n ih => simp [List.replicate_succ, releaseOf, ih]

lemma filterMap_releaseOf_setup_take (k : ℕ) :
    (setupActions.take k).filterMap releaseOf = [] := by
  have hsub : List.Sublist ((setupActions.take k).filterMap releaseOf)
      (setupActions.filterMap releaseOf) :=
    (List.take_sublist k setupActions).filterMap releaseOf
  have hnil : setupActions.filterMap releaseOf = [] := rfl
  rw [hnil] at hsub
  exact List.sublist_nil.mp hsub

lemma getLast?_append_exit (pre : List ProcAction) (ok : Bool) :
    (pre ++ exit_gracefully ok).getLast? =
      some (ProcAction.exitProc ok) := by
  rw [List.getLast?_append]
  rfl

/-- C7: the simulation context used by the transport loop has the
medium-event flag set in its event mask (together with the medium callback
and the PRNG), and on the successful path of `main` the event mask is set
exactly once, before any transport-loop iteration. -/
theorem context_event_medium_configured (c : Context) (b li : ℕ) :
    Nat.testBit (configureContext c b).event b = true ∧
    (configureContext c b).medium = true ∧
    (configureContext c b).random = true ∧
    ∃ pre post, mainTrace true true none li =
        pre ++ ProcAction.setEventMask :: post ∧
      ProcAction.setEventMask ∉ pre ∧
      ProcAction.setEventMask ∉ post ∧
      ProcAction.transportStep ∉ pre := by
  refine ⟨?_, rfl, rfl, ?_⟩
  · simp [configureContext, PUMAS_EVENT_MEDIUM, Nat.testBit_lor,
      Nat.testBit_two_pow_self]
  · refine ⟨[.acquire .physicsH, .mapMaterials, .acquire .contextH,
        .setMediumCallback, .setRandomCallback],
      .acquire .stepperH ::
        (List.replicate li ProcAction.transportStep ++ exit_gracefully true),
      ?_, by decide, ?_, by decide⟩
    · simp [mainTrace, setupActions]
    · simp [exit_gracefully, List.mem_replicate]

/-- C8: every exit path of the example — usage error, failure to open the
configuration dump, a library error routed through `handle_error`, and
normal completion — ends by releasing the stepper, then the context, then
the physics handle, which is exactly the reverse of the acquisition order,
and only then terminates the process. -/
theorem exit_paths_release_reverse (nargGe4 dumpOpen : Bool)
    (libErrAt : Option ℕ) (li : ℕ) :
    ∃ ok : Bool,
      exit_gracefully ok <:+ mainTrace nargGe4 dumpOpen libErrAt li ∧
      (mainTrace nargGe4 dumpOpen libErrAt li).filterMap releaseOf =
        [Handle.stepperH, Handle.contextH, Handle.physicsH] ∧
      (mainTrace nargGe4 dumpOpen libErrAt li).getLast? =
        some (ProcAction.exitProc ok) ∧
      [Handle.stepperH, Handle.contextH, Handle.physicsH] =
        (setupActions.filterMap acquireOf).reverse := by
  cases nargGe4 with
  | false => exact ⟨false, ⟨[.usageMsg], rfl⟩, rfl, rfl, rfl⟩
  | true =>
    cases dumpOpen with
    | false => exact ⟨false, ⟨[], rfl⟩, rfl, rfl, rfl⟩
    | true =>
      cases libErrAt with
      | some k =>
        refine ⟨false, ?_, ?_, ?_, rfl⟩
        · show exit_gracefully false <:+
            setupActions.take k ++ handle_error
          exact List.suffix_append _ _
        · show (setupActions.take k ++ handle_error).filterMap
            releaseOf = _
          rw [List.filterMap_append, filterMap_releaseOf_setup_take]
          rfl
        · exact getLast?_append_exit (setupActions.take k) false
      | none =>
        refine ⟨true, ?_, ?_, ?_, rfl⟩
        · show exit_gracefully true <:+
            setupActions ++ (List.replicate li ProcAction.transportStep ++
              exit_gracefully true)
          rw [← List.append_assoc]
          exact List.suffix_append _ _
        · show (setupActions ++ (List.replicate li ProcAction.transportStep ++
            exit_gracefully true)).filterMap releaseOf = _
          rw [List.filterMap_append, List.filterMap_append,
            filterMap_releaseOf_replicate]
          rfl
        · show (setupActions ++ (List.replicate li ProcAction.transportStep ++
            exit_gracefully true)).getLast? = _
          rw [← List.append_assoc]
          exact getLast?_append_exit _ true

/-- C4: a particle whose initial position the boundary stepper places in a
void layer (layer index outside `[0, NUMBER_OF_LAYERS)`) makes the
transport loop of `main` terminate on the first medium check: the engine's
first call is a degenerate zero-length step, and the loop exits after that
single call with the particle state unchanged. -/
theorem void_start_terminates_immediately (stepper : Vec3 → ℚ × Int)
    (rock water air : Int)
    (advance : PState → PState × Option Medium × Option Medium)
    (s : PState) (fuel : ℕ)
    (h : ¬(0 ≤ (stepper s.position).2 ∧
          (stepper s.position).2 < NUMBER_OF_LAYERS)) :
    runTransport (earthEngine stepper rock water air advance)
      (fuel + 1) s = some (1, s) := by
  have hres : (context_medium stepper rock water air s).1 = none := by
    simp [context_medium, earth_medium, h]
  have heng : earthEngine stepper rock water air advance s =
      (s, none, none) := by
    unfold earthEngine pumas_context_transport
    rw [hres]
  rw [runTransport, heng]
  simp [loopBreak]

/-- C4 witness: with the stepper reporting layer index 3 (above the
atmosphere) the loop stops after one degenerate call, state unchanged. -/
theorem void_start_terminates_immediately_witness :
    runTransport
      (earthEngine (fun _ => ((10 : ℚ), (3 : Int))) 7 8 9
        (fun s => (s, none, none)))
      1 sampleState = some (1, sampleState) :=
  void_start_terminates_immediately (fun _ => ((10 : ℚ), (3 : Int)))
    7 8 9 (fun s => (s, none, none)) sampleState 0 (by decide)

lemma engineIter_shift
    (engine : PState → PState × Option Medium × Option Medium)
    (s : PState) (k : ℕ) :
    engineIter engine (engine s).1 k = engineIter engine s (k + 1) := by
  induction k with
  | zero => rfl
  | succ k ih => simp only [engineIter, ih]

lemma stopCondAt_shift
    (engine : PState → PState × Option Medium × Option Medium)
    (s : PState) (k : ℕ) :
    stopCondAt engine (engine s).1 k ↔ stopCondAt engine s (k + 1) := by
  unfold stopCondAt
  rw [engineIter_shift]

/-- C2: the transport loop terminates exactly when, after a propagation
step, the after-medium of the reported media pair is NULL or the kinetic
energy is exactly zero, and in every other case it performs another
iteration.  Precisely: (a) whenever the loop returns after `n` engine
calls, the `n`-th report satisfies the break condition and every earlier
one fails it; (b) the loop does return right after the first report
satisfying the break condition; (c) it runs out of fuel exactly when no
report within the fuel satisfies the break condition. -/
theorem transport_loop_stops_iff
    (engine : PState → PState × Option Medium × Option Medium)
    (fuel : ℕ) (s : PState) :
    (∀ n sf, runTransport engine fuel s = some (n, sf) →
      ∃ m, n = m + 1 ∧ n ≤ fuel ∧ sf = engineIter engine s n ∧
        stopCondAt engine s m ∧ ∀ k < m, ¬stopCondAt engine s k) ∧
    (∀ m, m + 1 ≤ fuel → stopCondAt engine s m →
      (∀ k < m, ¬stopCondAt engine s k) →
      runTransport engine fuel s =
        some (m + 1, engineIter engine s (m + 1))) ∧
    (runTransport engine fuel s = none ↔
      ∀ k < fuel, ¬stopCondAt engine s k) := by
  induction fuel generalizing s with
  | zero =>
    refine ⟨?_, ?_, ?_⟩
    · intro n sf h
      simp [runTransport] at h
    · intro m hm
      exact absurd hm (by omega)
    · simp [runTransport]
  | succ fuel ih =>
    by_cases hb : loopBreak (engine s).1 (engine s).2.2
    · have hrun : runTransport engine (fuel + 1) s =
          some (1, (engine s).1) := by
        rw [runTransport, if_pos hb]
      have hstop0 : stopCondAt engine s 0 := hb
      refine ⟨?_, ?_, ?_⟩
      · intro n sf h
        rw [hrun] at h
        injection h with h
        injection h with hn hsf
        refine ⟨0, hn.symm, ?_, ?_, hstop0, ?_⟩
        · omega
        · rw [← hn]
          exact hsf.symm
        · intro k hk
          exact absurd hk (Nat.not_lt_zero k)
      · intro m hm hstop hmin
        cases m with
        | zero =>
          rw [hrun]
          rfl
        | succ m' => exact absurd hstop0 (hmin 0 (Nat.succ_pos m'))
      · rw [hrun]
        constructor
        · intro h
          simp at h
        · intro hall
          exact absurd hstop0 (hall 0 (Nat.succ_pos fuel))
    · have hrun : runTransport engine (fuel + 1) s =
          (runTransport engine fuel (engine s).1).map
            fun p => (p.1 + 1, p.2) := by
        rw [runTransport, if_neg hb]
      obtain ⟨ih1, ih2, ih3⟩ := ih (engine s).1
      refine ⟨?_, ?_, ?_⟩
      · intro n sf h
        rw [hrun] at h
        rcases ho : runTransport engine fuel (engine s).1 with _ | ⟨n', sf'⟩
        · rw [ho] at h
          simp at h
        · rw [ho] at h
          simp only [Option.map_some'] at h
          injection h with h
          injection h with hn hsf
          obtain ⟨m', hn', hle, hsf', hstop', hmin'⟩ := ih1 n' sf' ho
          refine ⟨m' + 1, by omega, by omega, ?_, ?_, ?_⟩
          · rw [← hsf, hsf', engineIter_shift, ← hn, hn']
          · exact (stopCondAt_shift engine s m').mp hstop'
          · intro k hk
            cases k with
            | zero => exact hb
            | succ j =>
              rw [← stopCondAt_shift]
              exact hmin' j (by omega)
      · intro m hm hstop hmin
        cases m with
        | zero => exact absurd hstop hb
        | succ m' =>
          have h2 : stopCondAt engine (engine s).1 m' :=
            (stopCondAt_shift engine s m').mpr hstop
          have h3 : ∀ k < m', ¬stopCondAt engine (engine s).1 k := by
            intro k hk
            rw [stopCondAt_shift]
            exact hmin (k + 1) (by omega)
          have hr := ih2 m' (by omega) h2 h3
          rw [hrun, hr]
          simp only [Option.map_some']
          rw [engineIter_shift]
      · rw [hrun, Option.map_eq_none', ih3]
        constructor
        · intro h k hk
          cases k with
          | zero => exact hb
          | succ j =>
            rw [← stopCondAt_shift]
            exact h j (by omega)
        · intro h k hk
          rw [stopCondAt_shift]
          exact h (k + 1) (by omega)

/-- A single homogeneous medium used by the loop-termination witness. -/
def witMedium : Medium := ⟨0, none⟩

/-- A toy engine for the loop-termination witness: each call removes one
unit of energy and reports the same medium on both sides of the step. -/
def witEngine : PState → PState × Option Medium × Option Medium :=
  fun s => ({ s with energy := s.energy - 1 }, some witMedium,
    some witMedium)

/-- Initial state for the loop-termination witness: 2 units of energy. -/
def witState : PState := ⟨-1, 2, 1, (0, 0, 0), (0, 0, 1)⟩

/-- C2 witness: starting from 2 units of energy under the toy engine, the
loop performs exactly two iterations and stops on the second report, the
first one failing the break condition. -/
theorem transport_loop_stops_iff_witness :
    runTransport witEngine 5 witState =
      some (2, engineIter witEngine witState 2) :=
  (transport_loop_stops_iff witEngine 5 witState).2.1 1 (by norm_num)
    (by
      simp [stopCondAt, engineIter, witEngine, witState, loopBreak]
      norm_num)
    (by
      intro k hk
      interval_cases k
      simp [stopCondAt, engineIter, witEngine, witState, loopBreak]
      norm_num)
